import Mathlib

/-!
Shallow embedding of the navigation controller in `src/ai-script.js`
(class `AIEncyclopedia`): section navigation with timer-deferred
transition phases, arrow-key sequential navigation, and substring search.

Modelling conventions:
* The external document is a fixed, ordered list of content-section ids
  (`doc : List String`); each id addresses one container.  The set of ids
  carrying the `active` CSS class is the `active` field of `NavState`.
* `setTimeout` callbacks are modelled as pending `(deadline, action)`
  pairs; the event loop fires the pending timer with the least deadline,
  ties broken by scheduling order, matching the host timer queue.
* `history.pushState(null, null, '#c')` is modelled by appending `c` to
  `url`; the current URL fragment is the last element of that list.
* Purely cosmetic effects (inline animation styles, scrolling, transition
  sound, card entrance animations, menu-link highlighting, notification
  slide-in/out timers and the text-highlighting DOM rewrite) are outside
  the modelled state; the 500 ms highlight timer of `performSearch` is
  kept as a pending action that does not touch navigation state.
-/

/-- The three kinds of `setTimeout` callback the controller schedules:
the 300 ms exit callback of `navigateToChapter` (removes the `active`
class from the captured previous element), the 150 ms completion callback
of `navigateToChapter` (shows the target, sets `currentSection`, pushes
the URL fragment), and the 500 ms cosmetic highlight of `performSearch`. -/
inductive TimerAction where
  | removeActive : String → TimerAction
  | completeNav : String → TimerAction
  | highlight : String → TimerAction
deriving DecidableEq, Repr

/-- Controller plus observable document state: `current` is
`this.currentSection`, `active` the list of section ids carrying the
`active` class, `url` the fragments pushed via `history.pushState`,
`notes` the notifications shown, `timers` the pending `setTimeout`
callbacks with absolute deadlines, `now` the current clock. -/
structure NavState where
  current : String
  active : List String
  url : List String
  notes : List (String × String)
  timers : List (Nat × TimerAction)
  now : Nat
deriving DecidableEq, Repr

/-- `showSection` (src/ai-script.js:78-98): removes `active` from every
content section, then adds it to the target when that element exists.
Scroll-to-top and entrance animations are cosmetic and not modelled. -/
def showSection (doc : List String) (s : NavState) (sectionId : String) : NavState :=
  if doc.contains sectionId then { s with active := [sectionId] } else { s with active := [] }

/-- `showNotification` (src/ai-script.js:369-416): appends a transient
toast (message, severity).  Its slide-in/auto-dismiss timers only touch
the toast element and are not modelled. -/
def showNotification (s : NavState) (message : String) (kind : String) : NavState :=
  { s with notes := s.notes ++ [(message, kind)] }

/-- `navigateToChapter` (src/ai-script.js:47-76): no-op when the target
equals `currentSection` or names no element; otherwise schedules the
300 ms exit callback (when the current element exists) and the 150 ms
completion callback.  Both are scheduled at call time, relative to `now`. -/
def navigateToChapter (doc : List String) (s : NavState) (chapter : String) : NavState :=
  if s.current == chapter then s
  else if !(doc.contains chapter) then s
  else
    let exitTimers :=
      if doc.contains s.current then [(s.now + 300, TimerAction.removeActive s.current)] else []
    { s with timers := s.timers ++ exitTimers ++ [(s.now + 150, TimerAction.completeNav chapter)] }

/-- Effect of one fired timer callback.  `removeActive` is the body of the
300 ms `setTimeout` (src/ai-script.js:58-61): `classList.remove('active')`
on the captured element (the cosmetic `style.animation` reset is not
modelled).  `completeNav` is the 150 ms callback (src/ai-script.js:64-75):
`showSection`, update `currentSection`, push the URL fragment (the
transition sound is cosmetic).  `highlight` rewrites text nodes only. -/
def fireAction (doc : List String) (s : NavState) : TimerAction → NavState
  | TimerAction.removeActive elId => { s with active := s.active.erase elId }
  | TimerAction.completeNav chapter =>
      let s1 := showSection doc s chapter
      { s1 with current := chapter, url := s1.url ++ [chapter] }
  | TimerAction.highlight _ => s

/-- Select the pending timer with the least deadline (ties resolved in
favour of the earlier-scheduled one, matching the host timer queue), and
return it together with the remaining queue. -/
def pickEarliest : List (Nat × TimerAction) → Option ((Nat × TimerAction) × List (Nat × TimerAction))
  | [] => none
  | t :: ts =>
    match pickEarliest ts with
    | none => some (t, [])
    | some (u, rest) => if t.1 ≤ u.1 then some (t, ts) else some (u, t :: rest)

/-- Fire the next due timer callback, if any. -/
def fireNext (doc : List String) (s : NavState) : NavState :=
  match pickEarliest s.timers with
  | none => s
  | some (t, rest) => fireAction doc { s with timers := rest, now := t.1 } t.2

/-- Fire pending timers in deadline order until the queue empties (fuel
bounds the number of steps; no modelled callback schedules new timers). -/
def drainTimers (doc : List String) : Nat → NavState → NavState
  | 0, s => s
  | fuel + 1, s =>
    match pickEarliest s.timers with
    | none => s
    | some (t, rest) =>
        drainTimers doc fuel (fireAction doc { s with timers := rest, now := t.1 } t.2)

/-- Let every pending deferred phase resolve. -/
def runToQuiescence (doc : List String) (s : NavState) : NavState :=
  drainTimers doc s.timers.length s

/-- Fire, in deadline order, exactly the pending timers due at or before
`deadline`. -/
def fireDue (doc : List String) : Nat → Nat → NavState → NavState
  | 0, _, s => s
  | fuel + 1, deadline, s =>
    match pickEarliest s.timers with
    | none => s
    | some (t, rest) =>
        if t.1 ≤ deadline then
          fireDue doc fuel deadline (fireAction doc { s with timers := rest, now := t.1 } t.2)
        else s

/-- Run a timed sequence of external `navigateToChapter` calls: before
each call, the timers already due have fired; after the last call all
remaining timers resolve. -/
def runEvents (doc : List String) : List (Nat × String) → NavState → NavState
  | [], s => runToQuiescence doc s
  | (t, ch) :: rest, s =>
      let s1 := fireDue doc s.timers.length t s
      runEvents doc rest (navigateToChapter doc { s1 with now := t } ch)

/-- One navigation issued at quiescence, followed by the full resolution
of its deferred phases. -/
def navStep (doc : List String) (s : NavState) (ch : String) : NavState :=
  runToQuiescence doc (navigateToChapter doc s ch)

/-- A serial run: navigations issued one at a time, each at quiescence. -/
def serialRun (doc : List String) (s : NavState) (navs : List String) : NavState :=
  navs.foldl (navStep doc) s

/-- The hard-coded keyboard catalog (src/ai-script.js:165-167, identical
list at lines 138-140). -/
def chapters : List String :=
  ["introduction", "genesis", "evolution", "current-state",
   "human-transformation", "dark-side", "psychological-impact",
   "future-scenarios", "singularity", "conclusion"]

/-- JavaScript `Array.prototype.indexOf`: index of the first occurrence,
`-1` when absent. -/
def jsIndexOf : List String → String → Int
  | [], _ => -1
  | a :: as, x =>
    if a == x then 0
    else
      let r := jsIndexOf as x
      if r == -1 then -1 else r + 1

/-- `navigateWithArrowKeys` (src/ai-script.js:164-180): previous/next in
the catalog with circular wrap-around, computed from
`chapters.indexOf(this.currentSection)` (which is `-1` off-catalog). -/
def navigateWithArrowKeys (doc : List String) (key : String) (s : NavState) : NavState :=
  let currentIndex := jsIndexOf chapters s.current
  let nextIndex : Int :=
    if key == "ArrowLeft" then
      if currentIndex > 0 then currentIndex - 1 else (chapters.length : Int) - 1
    else
      if currentIndex < (chapters.length : Int) - 1 then currentIndex + 1 else 0
  navigateToChapter doc s (chapters.getD nextIndex.toNat "")

/-- Does `hay` start with `needle` (character lists)? -/
def listStartsWith : List Char → List Char → Bool
  | _, [] => true
  | [], _ :: _ => false
  | a :: as, b :: bs => a == b && listStartsWith as bs

/-- Substring occurrence on character lists. -/
def listContainsSub : List Char → List Char → Bool
  | [], needle => listStartsWith [] needle
  | a :: as, needle => listStartsWith (a :: as) needle || listContainsSub as needle

/-- JavaScript `String.prototype.includes`. -/
def strIncludes (hay needle : String) : Bool :=
  listContainsSub hay.data needle.data

/-- JavaScript `String.prototype.toLowerCase` (ASCII-faithful). -/
def jsToLower (s : String) : String :=
  String.mk (s.data.map Char.toLower)

/-- The `forEach` callback body of `performSearch`
(src/ai-script.js:210-226): lowercase the section's content; on a match,
call `navigateToChapter`, set the `found` flag and schedule the 500 ms
highlight.  The `return` inside the callback exits only that single
callback invocation, so the scan continues over the remaining sections. -/
def searchScan (doc : List String) (term : String) (acc : NavState × Bool)
    (sec : String × String) : NavState × Bool :=
  if strIncludes (jsToLower sec.2) term then
    let a1 := navigateToChapter doc acc.1 sec.1
    ({ a1 with timers := a1.timers ++ [(a1.now + 500, TimerAction.highlight sec.1)] }, true)
  else acc

/-- `performSearch` (src/ai-script.js:206-231).  The document here also
carries each section's `textContent` (`docC`: id, content, in document
order).  When no section matched, a warning notification is shown. -/
def performSearch (docC : List (String × String)) (s : NavState) (term : String) : NavState :=
  let doc := docC.map Prod.fst
  let scan := docC.foldl (searchScan doc term) (s, false)
  if scan.2 then scan.1
  else showNotification scan.1 ("No results found for \"" ++ term ++ "\"") "warning"

/-- `showSearchDialog` (src/ai-script.js:199-204): a cancelled prompt or
a whitespace-only input is rejected; otherwise the trimmed, lowercased
query is searched. -/
def showSearchDialog (docC : List (String × String)) (s : NavState) (input : Option String) : NavState :=
  match input with
  | none => s
  | some q => if q.trim == "" then s else performSearch docC s (jsToLower q.trim)

/-- The controller state after the constructor and `setupNavigation`
(src/ai-script.js:5-9, 39-45): `currentSection` is `'introduction'` and
`showSection('introduction')` has run. -/
def initState (doc : List String) : NavState :=
  showSection doc
    { current := "introduction", active := [], url := [], notes := [], timers := [], now := 0 }
    "introduction"

/-! ### Concrete scenarios -/

/-- A three-section document for the back-to-back navigation race. -/
def raceDoc : List String := ["introduction", "genesis", "evolution"]

/-- Controller state right after `navigateToChapter('genesis')` and then
`navigateToChapter('evolution')` have been issued in the same event-loop
turn (before any timer fires): four callbacks are pending. -/
def racePending : NavState :=
  navigateToChapter raceDoc (navigateToChapter raceDoc (initState raceDoc) "genesis") "evolution"

/-- A four-section document for the overlapping-navigation scenario. -/
def overlapDoc : List String := ["introduction", "genesis", "evolution", "current-state"]

/-- Final state of the overlapping run: navigations issued at 0 ms
(`genesis`), 100 ms (`evolution`), 160 ms (`current-state`) and 260 ms
(`genesis`), then all timers resolved. -/
def overlapFinal : NavState :=
  runEvents overlapDoc
    [(0, "genesis"), (100, "evolution"), (160, "current-state"), (260, "genesis")]
    (initState overlapDoc)

/-- Sections with their text content for the search scenarios. -/
def searchDoc : List (String × String) :=
  [("introduction", "hello world"), ("genesis", "foo bar"), ("conclusion", "xyz")]

/-- Start state for the search scenarios: `conclusion` is current. -/
def searchStart : NavState :=
  { current := "conclusion", active := ["conclusion"], url := [], notes := [], timers := [], now := 0 }

/-- State after searching for `"o"` (which occurs in the content of both
`introduction` and `genesis`) and letting every timer resolve. -/
def searchAfter : NavState :=
  runToQuiescence (searchDoc.map Prod.fst) (performSearch searchDoc searchStart "o")

/-- State right after `navigateToChapter('genesis')` from the initial
state, before any timer fires. -/
def firstNav : NavState := navigateToChapter chapters (initState chapters) "genesis"

/-! ### Helper lemmas -/

theorem navigateToChapter_self (doc : List String) (s : NavState) :
    navigateToChapter doc s s.current = s := by
  simp [navigateToChapter]

theorem navigateToChapter_invalid (doc : List String) (s : NavState) (target : String)
    (h : doc.contains target = false) : navigateToChapter doc s target = s := by
  have hm : ¬ target ∈ doc := by simpa using h
  simp [navigateToChapter, hm]

theorem drainTimers_quiet (doc : List String) (fuel : Nat) (s : NavState)
    (h : s.timers = []) : drainTimers doc fuel s = s := by
  cases fuel with
  | zero => rfl
  | succ n => rw [drainTimers, h]; rfl

theorem drainTimers_step (doc : List String) (fuel : Nat) (s : NavState)
    (t : Nat × TimerAction) (rest : List (Nat × TimerAction))
    (h : pickEarliest s.timers = some (t, rest)) :
    drainTimers doc (fuel + 1) s =
      drainTimers doc fuel (fireAction doc { s with timers := rest, now := t.1 } t.2) := by
  rw [drainTimers, h]

theorem fireAction_removeActive (doc : List String) (s : NavState) (x : String) :
    fireAction doc s (TimerAction.removeActive x) = { s with active := s.active.erase x } := rfl

theorem fireAction_completeNav (doc : List String) (s : NavState) (ch : String)
    (hch : ch ∈ doc) :
    fireAction doc s (TimerAction.completeNav ch) =
      { s with current := ch, active := [ch], url := s.url ++ [ch] } := by
  simp [fireAction, showSection, hch]

/-- With an empty queue, a valid distinct target and an existing current
element, `navigateToChapter` schedules exactly the 300 ms exit callback
followed by the 150 ms completion callback. -/
theorem navigateToChapter_sched (doc : List String) (s : NavState) (ch : String)
    (ht : s.timers = []) (hch : doc.contains ch = true)
    (hc : doc.contains s.current = true) (hne : s.current ≠ ch) :
    navigateToChapter doc s ch =
      { s with timers := [(s.now + 300, TimerAction.removeActive s.current),
                          (s.now + 150, TimerAction.completeNav ch)] } := by
  have hbeq : (s.current == ch) = false := beq_eq_false_iff_ne.mpr hne
  simp only [navigateToChapter, hbeq, hch, hc, ht, Bool.false_eq_true, if_false,
    Bool.not_true, Bool.true_eq_false]
  rfl

/-- Variant of `navigateToChapter_sched` when the current section has no
element in the document: only the completion callback is scheduled. -/
theorem navigateToChapter_sched_noCurrent (doc : List String) (s : NavState) (ch : String)
    (ht : s.timers = []) (hch : doc.contains ch = true)
    (hc : doc.contains s.current = false) (hne : s.current ≠ ch) :
    navigateToChapter doc s ch =
      { s with timers := [(s.now + 150, TimerAction.completeNav ch)] } := by
  have hbeq : (s.current == ch) = false := beq_eq_false_iff_ne.mpr hne
  simp only [navigateToChapter, hbeq, hch, hc, ht, Bool.false_eq_true, if_false,
    Bool.not_true, Bool.true_eq_false]
  rfl

/-- Of the two callbacks scheduled by one navigation, the 150 ms one is
due first. -/
theorem pickEarliest_pair (n : Nat) (a b : TimerAction) :
    pickEarliest [(n + 300, a), (n + 150, b)] = some ((n + 150, b), [(n + 300, a)]) := by
  show (if n + 300 ≤ n + 150 then _ else _) = _
  rw [if_neg (by omega)]

theorem fireNext_eq (doc : List String) (s : NavState) (t : Nat × TimerAction)
    (rest : List (Nat × TimerAction)) (h : pickEarliest s.timers = some (t, rest)) :
    fireNext doc s = fireAction doc { s with timers := rest, now := t.1 } t.2 := by
  rw [fireNext, h]

/-- Full characterization of one navigation-at-quiescence to a valid,
distinct target: the target becomes current and the sole active section,
its fragment is pushed, and the timer queue empties again. -/
theorem navStep_spec (doc : List String) (s : NavState) (ch : String)
    (ht : s.timers = []) (hch : doc.contains ch = true) (hne : s.current ≠ ch) :
    navStep doc s ch =
      { s with current := ch, active := [ch], url := s.url ++ [ch], timers := [],
               now := if doc.contains s.current then s.now + 300 else s.now + 150 } := by
  have hchm : ch ∈ doc := by simpa using hch
  have hbeq2 : (ch == s.current) = false := beq_eq_false_iff_ne.mpr (Ne.symm hne)
  cases hc : doc.contains s.current with
  | true =>
    have hp1 : pickEarliest [(s.now + 300, TimerAction.removeActive s.current)] =
        some ((s.now + 300, TimerAction.removeActive s.current),
          ([] : List (Nat × TimerAction))) := rfl
    rw [navStep, runToQuiescence, navigateToChapter_sched doc s ch ht hch hc hne]
    show drainTimers doc (1 + 1) _ = _
    rw [drainTimers_step doc 1 _ _ _ (pickEarliest_pair s.now _ _)]
    rw [fireAction_completeNav doc _ ch hchm]
    show drainTimers doc (0 + 1) _ = _
    rw [drainTimers_step doc 0 _ _ _ hp1]
    rw [drainTimers]
    simp [fireAction, List.erase_cons, hbeq2, hc]
  | false =>
    have hp2 : pickEarliest [(s.now + 150, TimerAction.completeNav ch)] =
        some ((s.now + 150, TimerAction.completeNav ch),
          ([] : List (Nat × TimerAction))) := rfl
    rw [navStep, runToQuiescence, navigateToChapter_sched_noCurrent doc s ch ht hch hc hne]
    show drainTimers doc (0 + 1) _ = _
    rw [drainTimers_step doc 0 _ _ _ hp2]
    rw [drainTimers]
    simp [fireAction, showSection, hchm, hc]

theorem jsIndexOf_eq_neg_one (l : List String) (x : String) (h : ¬ x ∈ l) :
    jsIndexOf l x = -1 := by
  induction l with
  | nil => rfl
  | cons a as ih =>
    rw [List.mem_cons, not_or] at h
    have hba : (a == x) = false := beq_eq_false_iff_ne.mpr (fun hh => h.1 hh.symm)
    simp only [jsIndexOf, hba, Bool.false_eq_true, if_false]
    rw [ih h.2]
    rfl

/-- One navigation issued at quiescence preserves the one-active-section
invariant (whatever the target: already-current and unknown targets are
no-ops, valid ones complete). -/
theorem navStep_preserves (doc : List String) (s : NavState) (ch : String)
    (ha : s.active = [s.current]) (ht : s.timers = []) :
    (navStep doc s ch).active = [(navStep doc s ch).current] ∧
      (navStep doc s ch).timers = [] := by
  by_cases hcur : s.current = ch
  · rw [navStep, ← hcur, navigateToChapter_self, runToQuiescence, drainTimers_quiet doc _ s ht]
    exact ⟨ha, ht⟩
  · cases hch : doc.contains ch with
    | false =>
      rw [navStep, navigateToChapter_invalid doc s ch hch, runToQuiescence,
        drainTimers_quiet doc _ s ht]
      exact ⟨ha, ht⟩
    | true =>
      rw [navStep_spec doc s ch ht hch hcur]
      exact ⟨rfl, rfl⟩

/-- The one-active-section invariant holds after any serial run. -/
theorem serialRun_invariant (doc : List String) (s : NavState) (navs : List String)
    (ha : s.active = [s.current]) (ht : s.timers = []) :
    (serialRun doc s navs).active = [(serialRun doc s navs).current] ∧
      (serialRun doc s navs).timers = [] := by
  induction navs generalizing s with
  | nil => exact ⟨ha, ht⟩
  | cons ch rest ih =>
    rw [serialRun, List.foldl_cons]
    exact ih (navStep doc s ch) (navStep_preserves doc s ch ha ht).1
      (navStep_preserves doc s ch ha ht).2

/-- Scanning sections none of which matches leaves the accumulator
untouched. -/
theorem searchScan_nomatch (doc : List String) (term : String) (l : List (String × String))
    (acc : NavState × Bool) (h : ∀ p ∈ l, strIncludes (jsToLower p.2) term = false) :
    l.foldl (searchScan doc term) acc = acc := by
  induction l generalizing acc with
  | nil => rfl
  | cons p rest ih =>
    rw [List.foldl_cons]
    have hp : searchScan doc term acc p = acc := by
      simp only [searchScan, h p (List.mem_cons_self p rest), Bool.false_eq_true, if_false]
    rw [hp]
    exact ih acc (fun q hq => h q (List.mem_cons_of_mem p hq))

/-! ### Claim theorems -/

/-- Claim C6: invoking navigation with the section that is already
current is a complete no-op — the state is returned unchanged, so there
is no visual transition, no URL rewrite and no timer is scheduled. -/
theorem c6_navigate_to_current_noop (doc : List String) (s : NavState) :
    navigateToChapter doc s s.current = s :=
  navigateToChapter_self doc s

/-- Claim C7: navigating to an identifier that names no existing section
is a silent no-op — the state is returned unchanged, so `currentSection`
keeps its value, no visibility changes, no timer is scheduled, and the
(total) operation raises no error. -/
theorem c7_invalid_target_noop (doc : List String) (s : NavState) (target : String)
    (h : doc.contains target = false) :
    navigateToChapter doc s target = s :=
  navigateToChapter_invalid doc s target h

theorem c7_invalid_target_noop_witness :
    chapters.contains "nonexistent" = false ∧
      navigateToChapter chapters (initState chapters) "nonexistent" = initState chapters :=
  ⟨by decide, c7_invalid_target_noop chapters (initState chapters) "nonexistent" (by decide)⟩

/-- Claim C5: from a quiescent state, navigating to a valid section X
distinct from the current one and letting all deferred phases resolve
leaves `currentSection = X`, the URL fragment (most recent push) equal to
X, and X as the sole active section.  The URL is updated via
`history.pushState`, which rewrites the fragment without a reload. -/
theorem c5_navigation_completes (doc : List String) (s : NavState) (x : String)
    (ht : s.timers = []) (hx : doc.contains x = true) (hne : s.current ≠ x) :
    (navStep doc s x).current = x ∧ (navStep doc s x).url = s.url ++ [x] ∧
      (navStep doc s x).active = [x] := by
  rw [navStep_spec doc s x ht hx hne]
  exact ⟨rfl, rfl, rfl⟩

theorem c5_navigation_completes_witness :
    ((initState chapters).timers = [] ∧ chapters.contains "genesis" = true ∧
        (initState chapters).current ≠ "genesis") ∧
      (navStep chapters (initState chapters) "genesis").current = "genesis" ∧
      (navStep chapters (initState chapters) "genesis").url =
        (initState chapters).url ++ ["genesis"] ∧
      (navStep chapters (initState chapters) "genesis").active = ["genesis"] :=
  ⟨⟨by decide, by decide, by decide⟩,
    c5_navigation_completes chapters (initState chapters) "genesis"
      (by decide) (by decide) (by decide)⟩

/-- Claim C8: arrow-key navigation wraps circularly — from the first
catalog entry, ArrowLeft navigates to the last entry (`conclusion`), and
from the last entry, ArrowRight navigates to the first (`introduction`),
in each case once the transition's deferred phases resolve. -/
theorem c8_wraparound (s : NavState) (ht : s.timers = []) :
    (s.current = "introduction" →
      (runToQuiescence chapters (navigateWithArrowKeys chapters "ArrowLeft" s)).current =
        "conclusion") ∧
    (s.current = "conclusion" →
      (runToQuiescence chapters (navigateWithArrowKeys chapters "ArrowRight" s)).current =
        "introduction") := by
  constructor
  · intro hcur
    have e : navigateWithArrowKeys chapters "ArrowLeft" s =
        navigateToChapter chapters s "conclusion" := by
      rw [navigateWithArrowKeys, hcur]
      rfl
    rw [e]
    show (navStep chapters s "conclusion").current = "conclusion"
    rw [navStep_spec chapters s "conclusion" ht (by decide) (by rw [hcur]; decide)]
  · intro hcur
    have e : navigateWithArrowKeys chapters "ArrowRight" s =
        navigateToChapter chapters s "introduction" := by
      rw [navigateWithArrowKeys, hcur]
      rfl
    rw [e]
    show (navStep chapters s "introduction").current = "introduction"
    rw [navStep_spec chapters s "introduction" ht (by decide) (by rw [hcur]; decide)]

theorem c8_wraparound_witness :
    ((initState chapters).timers = [] ∧ (initState chapters).current = "introduction" ∧
      (runToQuiescence chapters
        (navigateWithArrowKeys chapters "ArrowLeft" (initState chapters))).current =
          "conclusion") ∧
    ((navStep chapters (initState chapters) "conclusion").timers = [] ∧
      (navStep chapters (initState chapters) "conclusion").current = "conclusion" ∧
      (runToQuiescence chapters (navigateWithArrowKeys chapters "ArrowRight"
        (navStep chapters (initState chapters) "conclusion"))).current = "introduction") :=
  ⟨⟨by decide, by decide, (c8_wraparound (initState chapters) (by decide)).1 (by decide)⟩,
   ⟨by decide, by decide,
    (c8_wraparound (navStep chapters (initState chapters) "conclusion") (by decide)).2
      (by decide)⟩⟩

/-- Claim C10: when the current section's identifier is not among the ten
entries of the hard-coded keyboard catalog, `chapters.indexOf` yields -1
and arrow-key navigation proceeds deterministically from that index:
ArrowLeft navigates to the last catalog entry (`conclusion`) and
ArrowRight to the first (`introduction`). -/
theorem c10_unknown_current_arrow_nav (doc : List String) (s : NavState)
    (hcat : chapters.contains s.current = false) (ht : s.timers = [])
    (hconc : doc.contains "conclusion" = true)
    (hintro : doc.contains "introduction" = true) :
    (runToQuiescence doc (navigateWithArrowKeys doc "ArrowLeft" s)).current = "conclusion" ∧
    (runToQuiescence doc (navigateWithArrowKeys doc "ArrowRight" s)).current =
      "introduction" := by
  have hmem : ¬ s.current ∈ chapters := by simpa using hcat
  have hidx : jsIndexOf chapters s.current = -1 := jsIndexOf_eq_neg_one chapters s.current hmem
  have hne1 : s.current ≠ "conclusion" := by
    intro h
    rw [h] at hcat
    exact absurd hcat (by decide)
  have hne2 : s.current ≠ "introduction" := by
    intro h
    rw [h] at hcat
    exact absurd hcat (by decide)
  constructor
  · have e : navigateWithArrowKeys doc "ArrowLeft" s = navigateToChapter doc s "conclusion" := by
      rw [navigateWithArrowKeys, hidx]
      rfl
    rw [e]
    show (navStep doc s "conclusion").current = "conclusion"
    rw [navStep_spec doc s "conclusion" ht hconc hne1]
  · have e : navigateWithArrowKeys doc "ArrowRight" s = navigateToChapter doc s "introduction" := by
      rw [navigateWithArrowKeys, hidx]
      rfl
    rw [e]
    show (navStep doc s "introduction").current = "introduction"
    rw [navStep_spec doc s "introduction" ht hintro hne2]

theorem c10_unknown_current_arrow_nav_witness :
    (chapters.contains "welcome" = false ∧ chapters.contains "conclusion" = true ∧
        chapters.contains "introduction" = true) ∧
      (runToQuiescence chapters (navigateWithArrowKeys chapters "ArrowLeft"
        { current := "welcome", active := ["welcome"], url := [], notes := [], timers := [],
          now := 0 })).current = "conclusion" ∧
      (runToQuiescence chapters (navigateWithArrowKeys chapters "ArrowRight"
        { current := "welcome", active := ["welcome"], url := [], notes := [], timers := [],
          now := 0 })).current = "introduction" :=
  ⟨⟨by decide, by decide, by decide⟩,
    c10_unknown_current_arrow_nav chapters
      { current := "welcome", active := ["welcome"], url := [], notes := [], timers := [],
        now := 0 } (by decide) rfl (by decide) (by decide)⟩

/-- Claim C3, counterexample: the invariant "exactly one section is
active and it equals `currentSection` in every reachable state" fails on
a reachable state.  Navigations overlapping pending transitions (issued
at 0, 100, 160 and 260 ms) drive the controller into a quiescent state —
no transition in progress at all — in which `currentSection` is
`genesis` but NO section is active: the 300 ms exit callback captured at
160 ms removed `genesis` at 460 ms, after the 410 ms completion of the
260 ms navigation had re-activated it. -/
theorem c3_invariant_violation :
    overlapFinal.active = [] ∧ overlapFinal.current = "genesis" ∧
      overlapFinal.timers = [] := by decide

/-- Claim C3 (amended): in every state reached by navigations that do not
overlap a pending transition — each `NavigateTo` issued at quiescence and
allowed to resolve its deferred phases — exactly one section is marked
active and it equals `currentSection`. -/
theorem c3_serial_invariant (doc : List String) (s : NavState) (navs : List String)
    (ha : s.active = [s.current]) (ht : s.timers = []) :
    (serialRun doc s navs).active = [(serialRun doc s navs).current] :=
  (serialRun_invariant doc s navs ha ht).1

theorem c3_serial_invariant_witness :
    ((initState chapters).active = [(initState chapters).current] ∧
        (initState chapters).timers = []) ∧
      (serialRun chapters (initState chapters) ["genesis", "evolution", "genesis"]).active =
        [(serialRun chapters (initState chapters) ["genesis", "evolution", "genesis"]).current] :=
  ⟨⟨by decide, by decide⟩,
    c3_serial_invariant chapters (initState chapters) ["genesis", "evolution", "genesis"]
      (by decide) (by decide)⟩

/-- Claim C9: a non-empty query that matches no section's content only
appends the warning notification "No results found for "<query>"" to the
notification surface; every other field — `currentSection`, the active
sections, the URL history, the pending timers — is unchanged, so no
navigation is triggered. -/
theorem c9_no_match_notification (docC : List (String × String)) (s : NavState)
    (term : String) (_hterm : term ≠ "")
    (hnone : ∀ p ∈ docC, strIncludes (jsToLower p.2) term = false) :
    performSearch docC s term =
      { s with notes := s.notes ++ [("No results found for \"" ++ term ++ "\"", "warning")] } := by
  rw [performSearch]
  rw [searchScan_nomatch (docC.map Prod.fst) term docC (s, false) hnone]
  rfl

theorem c9_no_match_notification_witness :
    (("zzz" : String) ≠ "" ∧ ∀ p ∈ searchDoc, strIncludes (jsToLower p.2) "zzz" = false) ∧
      performSearch searchDoc searchStart "zzz" =
        { searchStart with
            notes := searchStart.notes ++
              [("No results found for \"" ++ "zzz" ++ "\"", "warning")] } :=
  ⟨⟨by decide, by decide⟩,
    c9_no_match_notification searchDoc searchStart "zzz" (by decide) (by decide)⟩

/-- Claim C1, counterexample: after `NavigateTo('genesis')` immediately
followed by `NavigateTo('evolution')` (state `racePending`), the next
timer to fire is the abandoned first transition's 150 ms completion
callback — it is not cancelled, and firing it is not a no-op: it marks
`genesis` active, sets `currentSection` to `genesis` and pushes the
fragment `#genesis`, all of which the second transition must later
overwrite. -/
theorem c1_abandoned_timer_not_noop :
    racePending.current = "introduction" ∧ racePending.url = [] ∧
      racePending.active = ["introduction"] ∧
      pickEarliest racePending.timers =
        some ((150, TimerAction.completeNav "genesis"),
          [(300, TimerAction.removeActive "introduction"),
           (300, TimerAction.removeActive "introduction"),
           (150, TimerAction.completeNav "evolution")]) ∧
      (fireNext raceDoc racePending).current = "genesis" ∧
      (fireNext raceDoc racePending).active = ["genesis"] ∧
      (fireNext raceDoc racePending).url = ["genesis"] := by decide

/-- Claim C1 (amended): last-write-wins holds — `NavigateTo('genesis')`
immediately followed by `NavigateTo('evolution')` ends with `evolution`
current and sole active — and the abandoned transition's 300 ms exit
callbacks are no-ops when they fire; but the abandoned transition's
150 ms completion callback is neither cancelled nor a no-op: it fires
first, transiently making `genesis` current/active and pushing
`#genesis` (visible in the final URL history) before the second
transition's completion callback overrides it. -/
theorem c1_last_write_wins :
    (runEvents raceDoc [(0, "genesis"), (0, "evolution")] (initState raceDoc)).current =
        "evolution" ∧
      (runEvents raceDoc [(0, "genesis"), (0, "evolution")] (initState raceDoc)).active =
        ["evolution"] ∧
      (runEvents raceDoc [(0, "genesis"), (0, "evolution")] (initState raceDoc)).url =
        ["genesis", "evolution"] ∧
      (fireNext raceDoc (fireNext raceDoc racePending)).current = "evolution" ∧
      (fireNext raceDoc (fireNext raceDoc racePending)).active = ["evolution"] := by decide

/-- Claim C2 (code behavior at the failing input): with sections
`introduction: "hello world"`, `genesis: "foo bar"`, `conclusion: "xyz"`,
current section `conclusion`, and query `"o"` (which occurs in the first
two contents), the search calls `navigateToChapter` for BOTH matching
sections — `Array.prototype.forEach` ignores the callback's `return`, so
the scan does not stop at the first match — and after all timers resolve
the current section is `genesis`, the LAST match, with both fragments
pushed, contradicting the first-match-only contract and the code's own
`// Stop at first match` comment. -/
theorem c2_search_visits_all_matches :
    searchAfter.current = "genesis" ∧ searchAfter.active = ["genesis"] ∧
      searchAfter.url = ["introduction", "genesis"] := by decide

/-- Claim C4, counterexample: navigating from `introduction` to `genesis`
at time 0 schedules the exit callback for 300 ms and the completion
callback for 150 ms; the FIRST timer to fire (at 150 ms) already marks
`genesis` active while the removal of `introduction` is still pending for
300 ms — the target becomes active before, not 150 ms after, the
previous section's removal callback runs, refuting the claimed ordering
(exit at ~300 ms, then +150 ms, then activation). -/
theorem c4_activation_before_removal :
    firstNav.timers =
        [(300, TimerAction.removeActive "introduction"),
         (150, TimerAction.completeNav "genesis")] ∧
      (fireNext chapters firstNav).now = 150 ∧
      (fireNext chapters firstNav).active = ["genesis"] ∧
      (fireNext chapters firstNav).timers =
        [(300, TimerAction.removeActive "introduction")] := by decide

/-- Claim C4 (amended): the two phases are scheduled concurrently at
navigation start, not chained: the exit callback is due `now + 300` and
the completion callback `now + 150`.  The completion callback fires
first, at +150 ms, marking the target active (its `showSection` strips
the previous section's active mark at that same moment); the exit
callback fires afterwards, at +300 ms, and leaves the active set
unchanged. -/
theorem c4_transition_phase_order (doc : List String) (s : NavState) (x : String)
    (ht : s.timers = []) (hx : doc.contains x = true)
    (hcur : doc.contains s.current = true) (hne : s.current ≠ x) :
    (navigateToChapter doc s x).timers =
        [(s.now + 300, TimerAction.removeActive s.current),
         (s.now + 150, TimerAction.completeNav x)] ∧
      (fireNext doc (navigateToChapter doc s x)).now = s.now + 150 ∧
      (fireNext doc (navigateToChapter doc s x)).active = [x] ∧
      (fireNext doc (fireNext doc (navigateToChapter doc s x))).now = s.now + 300 ∧
      (fireNext doc (fireNext doc (navigateToChapter doc s x))).active = [x] := by
  have hxm : x ∈ doc := by simpa using hx
  have hbeq2 : (x == s.current) = false := beq_eq_false_iff_ne.mpr (Ne.symm hne)
  have e1 := navigateToChapter_sched doc s x ht hx hcur hne
  rw [e1]
  have e2 : fireNext doc
      { s with timers := [(s.now + 300, TimerAction.removeActive s.current),
                          (s.now + 150, TimerAction.completeNav x)] } =
      { s with current := x, active := [x], url := s.url ++ [x],
               timers := [(s.now + 300, TimerAction.removeActive s.current)],
               now := s.now + 150 } := by
    rw [fireNext_eq doc _ _ _ (pickEarliest_pair s.now _ _)]
    rw [fireAction_completeNav doc _ x hxm]
  rw [e2]
  have e3 : fireNext doc
      { s with current := x, active := [x], url := s.url ++ [x],
               timers := [(s.now + 300, TimerAction.removeActive s.current)],
               now := s.now + 150 } =
      { s with current := x, active := [x], url := s.url ++ [x], timers := [],
               now := s.now + 300 } := by
    have hp1 : pickEarliest [(s.now + 300, TimerAction.removeActive s.current)] =
        some ((s.now + 300, TimerAction.removeActive s.current),
          ([] : List (Nat × TimerAction))) := rfl
    rw [fireNext_eq doc _ _ _ hp1]
    rw [fireAction_removeActive]
    simp [List.erase_cons, hbeq2]
  rw [e3]
  exact ⟨rfl, rfl, rfl, rfl, rfl⟩

theorem c4_transition_phase_order_witness :
    ((initState chapters).timers = [] ∧ chapters.contains "genesis" = true ∧
        chapters.contains (initState chapters).current = true ∧
        (initState chapters).current ≠ "genesis") ∧
      (navigateToChapter chapters (initState chapters) "genesis").timers =
        [((initState chapters).now + 300, TimerAction.removeActive (initState chapters).current),
         ((initState chapters).now + 150, TimerAction.completeNav "genesis")] ∧
      (fireNext chapters (navigateToChapter chapters (initState chapters) "genesis")).active =
        ["genesis"] :=
  ⟨⟨by decide, by decide, by decide, by decide⟩,
    ((c4_transition_phase_order chapters (initState chapters) "genesis"
        (by decide) (by decide) (by decide) (by decide)).1),
    ((c4_transition_phase_order chapters (initState chapters) "genesis"
        (by decide) (by decide) (by decide) (by decide)).2.2.1)⟩
